import Mathlib

/-!
Verification of the MPI+threads MPI_Put message-rate/bandwidth benchmark
`src/rma/multiple_put_with_lock_flush_one_window_mbw_mr.c`.

Modelling conventions:
* C `int` values are modelled as `Nat`; every property quantifies over the
  non-negative ranges where C truncating division and `Nat` floor division
  agree.
* C `double` values are modelled as `ℚ`; the arithmetic the code performs
  (one division per quantity, one sum) is exact at the rational values the
  scenarios use.
* The sequential structure of `main` and `run_bench` (window creation, epoch
  open/close, barriers, teardown, reporting) is modelled as an event trace,
  one `List Ev` per process rank.
-/

namespace MbwMr

/-- Macro `WINDOW_SIZE` (line 12): the compile-time batch size. -/
def WINDOW_SIZE : Nat := 64

/-- Macro `DEF_NUM_THREADS` (line 10). -/
def DEF_NUM_THREADS : Nat := 1

/-- Macro `DEF_MESSAGE_SIZE` (line 11). -/
def DEF_MESSAGE_SIZE : Nat := 8

/-- Macro `DEF_NUM_MESSAGES` (line 13). -/
def DEF_NUM_MESSAGES : Nat := 640000

/-- Macro `LARGE_MSG_TH` (line 14). -/
def LARGE_MSG_TH : Nat := 16384

/-- Macro `DEF_LARGE_NUM_MESSAGES` (line 15). -/
def DEF_LARGE_NUM_MESSAGES : Nat := 64000

/-- Line 41: `num_messages = WINDOW_SIZE * (num_messages / num_threads / WINDOW_SIZE);`.
The batch size is kept as the parameter `window_size`; the C code instantiates it
with the `WINDOW_SIZE` macro. -/
def normalizeMessages (num_messages num_threads window_size : Nat) : Nat :=
  window_size * (num_messages / num_threads / window_size)

/-- Line 79: `win_posts = num_messages / WINDOW_SIZE;`, computed from the
already-normalized `num_messages` of line 41. -/
def win_posts (num_messages num_threads : Nat) : Nat :=
  normalizeMessages num_messages num_threads WINDOW_SIZE / WINDOW_SIZE

/-- Lines 80-82: the accuracy warning is printed iff
`win_posts * WINDOW_SIZE != num_messages`, where `num_messages` is the
already-normalized value of line 41. -/
def accuracyWarning (num_messages num_threads : Nat) : Bool :=
  win_posts num_messages num_threads * WINDOW_SIZE
    != normalizeMessages num_messages num_threads WINDOW_SIZE

/-- Line 46: `contig_buffer_size = message_size * sizeof(char) * num_threads;`
(`sizeof(char)` is 1). -/
def contig_buffer_size (message_size num_threads : Nat) : Nat :=
  message_size * num_threads

/-- Line 78: `target_disp = tid * message_size;` — the fixed displacement each
thread writes to, in both the warmup loop and the measured loop. -/
def target_disp (tid message_size : Nat) : Nat :=
  tid * message_size

/-- WorkerSlot `i`: the byte range `[i*message_size, (i+1)*message_size)` of the
target window. -/
def slotRange (i message_size : Nat) : Finset Nat :=
  Finset.Ico (i * message_size) ((i + 1) * message_size)

/-- The bytes touched by one `MPI_Put` of thread `tid` (lines 94-95 and 111-112):
`message_size` bytes starting at `target_disp`. -/
def putRange (tid message_size : Nat) : Finset Nat :=
  Finset.Ico (target_disp tid message_size) (target_disp tid message_size + message_size)

/-- Line 154: `my_msg_rate = ((double) num_messages / t_elapsed[thread_i]) / 1e6;`. -/
def threadMsgRate (num_messages : Nat) (t : ℚ) : ℚ :=
  (num_messages : ℚ) / t / 1000000

/-- Lines 155-157:
`my_bandwidth = (((double) message_size * (double) num_messages) / (1024 * 1024)) / t_elapsed[thread_i];`. -/
def threadBandwidth (message_size num_messages : Nat) (t : ℚ) : ℚ :=
  ((message_size : ℚ) * (num_messages : ℚ)) / (1024 * 1024) / t

/-- The state the reporting block of `run_bench` (lines 148-167) works on:
the per-thread elapsed-time array `t_elapsed`, the printed per-thread
`(Mmsgs/s, MB/s)` rows, and the accumulators `msg_rate` and `bandwidth`. -/
structure AggState where
  t_elapsed : List ℚ
  perThread : List (ℚ × ℚ)
  msg_rate : ℚ
  bandwidth : ℚ
deriving DecidableEq, Repr

/-- One iteration of the reporting loop (lines 153-161): compute this thread's
rate and bandwidth, print the row, add them to the accumulators. -/
def aggStep (message_size num_messages : Nat) (s : AggState) (t : ℚ) : AggState :=
  { s with
    perThread := s.perThread ++ [(threadMsgRate num_messages t,
                                  threadBandwidth message_size num_messages t)]
    msg_rate := s.msg_rate + threadMsgRate num_messages t
    bandwidth := s.bandwidth + threadBandwidth message_size num_messages t }

/-- The whole reporting block (lines 148-161): reset the accumulators
(`msg_rate = 0; bandwidth = 0`, lines 150-151), then loop over the threads. -/
def aggregate (message_size num_messages : Nat) (s : AggState) : AggState :=
  s.t_elapsed.foldl (aggStep message_size num_messages)
    { s with perThread := [], msg_rate := 0, bandwidth := 0 }

/-- The thread-support level the substrate was initialized with
(`provided` of `MPI_Init_thread`, line 229). -/
inductive ThreadLevel where
  | single
  | funneled
  | serialized
  | multiple
deriving DecidableEq, Repr

/-- Observable events of one process of the benchmark, in program order. -/
inductive Ev where
  | initThread      -- MPI_Init_thread, line 229
  | abortRun        -- MPI_Abort, lines 232 and 238
  | allocTargetBuf  -- posix_memalign of contig_buf on the target, line 52
  | winCreate       -- MPI_Win_create, lines 58 and 61
  | lockAll         -- MPI_Win_lock_all, line 65
  | warmupLoop      -- warmup put/flush loop, lines 92-98
  | mpiBarrier      -- MPI_Barrier, lines 102, 128, 146, 169
  | measureLoop     -- measured put/flush loop, lines 107-118
  | unlockAll       -- MPI_Win_unlock_all, line 142
  | winFree         -- MPI_Win_free, lines 135 and 143
  | report          -- reporting block, lines 148-167
  | freeBuf         -- free(contig_buf), line 171
  | finalize        -- MPI_Finalize, line 251
deriving DecidableEq, Repr

/-- The event trace of `run_bench` (lines 31-174) for a process of the given
rank: rank `0` (`rank % 2 == 0`) is the putter, rank `1` the target. The
parallel region is modelled by its per-thread phase sequence (all worker
threads pass through the same phases; the intra-process `omp` barriers are
not cross-peer events). -/
def runBenchTrace (rank : Nat) : List Ev :=
  (if rank % 2 == 0 then [] else [.allocTargetBuf])             -- lines 47-53
    ++ [.winCreate]                                             -- lines 56-62
    ++ (if rank % 2 == 0 then [.lockAll] else [])               -- lines 64-65
    ++ (if rank % 2 == 0 then
          [.warmupLoop, .mpiBarrier, .measureLoop]              -- lines 92-118
        else
          [.mpiBarrier, .winFree])                              -- lines 126-136
    ++ (if rank % 2 == 0 then [.unlockAll, .winFree] else [])   -- lines 141-144
    ++ [.mpiBarrier]                                            -- line 146
    ++ (if rank % 2 == 0 then [.report] else [])                -- lines 148-167
    ++ [.mpiBarrier, .freeBuf]                                  -- lines 169-171

/-- The event trace of `main` after argument parsing (lines 229-251): init the
substrate, abort unless full multithreading was provided (lines 230-233),
abort unless exactly two peers are present (lines 236-239), otherwise run the
benchmark and finalize. -/
def mainTrace (provided : ThreadLevel) (size rank : Nat) : List Ev :=
  Ev.initThread ::
    (if provided ≠ ThreadLevel.multiple then [.abortRun]
     else if size ≠ 2 then [.abortRun]
     else runBenchTrace rank ++ [.finalize])

/-- The sender-side phase order asserted by the spec's state machine (§4.4):
`WindowReady → EpochOpen → Warmup → Barrier1 → Measuring → Barrier2 →
EpochClosed → WindowFreed → Barrier3 → Reported`. Stated from the spec's
words, for comparison with `runBenchTrace 0`. -/
def specSenderTrace : List Ev :=
  [.winCreate, .lockAll, .warmupLoop, .mpiBarrier, .measureLoop, .mpiBarrier,
   .unlockAll, .winFree, .mpiBarrier, .report]

/-- A command-line option as delivered by `getopt_long` with optstring
`"h?T:W:M:S:"` and long options `threads`, `window-size`, `num-messages`,
`message-size` (lines 181-187, 194). -/
inductive CliOpt where
  | help                   -- 'h' or '?'
  | threads (v : Nat)      -- 'T' / --threads
  | windowSize (v : Nat)   -- 'W' / --window-size
  | numMessages (v : Nat)  -- 'M' / --num-messages
  | messageSize (v : Nat)  -- 'S' / --message-size
deriving DecidableEq, Repr

/-- Outcome of the option loop of `main` (lines 193-216). -/
inductive CliResult where
  | usage                 -- print_usage and return -1, lines 199-202
  | unrecognizedFailure   -- printf("Unrecognized argument") and EXIT_FAILURE, lines 212-214
  | params (num_threads num_messages message_size : Nat)
deriving DecidableEq, Repr

/-- The option loop of `main` (lines 193-216), one option at a time, threading
the three settable globals. The switch handles `'?'`/`'h'` (usage), `'T'`,
`'M'`, `'S'` (assignments); `'W'` — returned by `getopt_long` because it is in
the optstring — falls to the `default` branch: "Unrecognized argument",
`EXIT_FAILURE`. -/
def parseArgs : List CliOpt → Nat → Nat → Nat → CliResult
  | [], nt, nm, ms => .params nt nm ms
  | .help :: _, _, _, _ => .usage
  | .threads v :: rest, _, nm, ms => parseArgs rest v nm ms
  | .numMessages v :: rest, nt, _, ms => parseArgs rest nt v ms
  | .messageSize v :: rest, nt, nm, _ => parseArgs rest nt nm v
  | .windowSize _ :: _, _, _, _ => .unrecognizedFailure

/-- `main`'s parsing phase: defaults from lines 189-191, then the option loop. -/
def mainParse (opts : List CliOpt) : CliResult :=
  parseArgs opts DEF_NUM_THREADS DEF_NUM_MESSAGES DEF_MESSAGE_SIZE

/-! ## Helper lemmas -/

/-- Closed form of the reporting fold from any starting state. -/
lemma foldl_aggStep (ms nm : Nat) (l : List ℚ) :
    ∀ s : AggState,
      l.foldl (aggStep ms nm) s =
        { t_elapsed := s.t_elapsed
          perThread := s.perThread ++ l.map fun t =>
            (threadMsgRate nm t, threadBandwidth ms nm t)
          msg_rate := s.msg_rate + (l.map (threadMsgRate nm)).sum
          bandwidth := s.bandwidth + (l.map (threadBandwidth ms nm)).sum } := by
  induction l with
  | nil => intro s; simp
  | cons t ts ih =>
    intro s
    rw [List.foldl_cons, ih]
    simp [aggStep, add_assoc]

/-- The reporting block in closed form: it only reads `t_elapsed` and fully
overwrites the derived fields. -/
lemma aggregate_eq (ms nm : Nat) (s : AggState) :
    aggregate ms nm s =
      { t_elapsed := s.t_elapsed
        perThread := s.t_elapsed.map fun t =>
          (threadMsgRate nm t, threadBandwidth ms nm t)
        msg_rate := (s.t_elapsed.map (threadMsgRate nm)).sum
        bandwidth := (s.t_elapsed.map (threadBandwidth ms nm)).sum } := by
  rw [aggregate, foldl_aggStep]
  simp

/-- Line 79 in closed form: the batch count is
`num_messages / num_threads / WINDOW_SIZE`. -/
lemma win_posts_eq (num_messages num_threads : Nat) :
    win_posts num_messages num_threads = num_messages / num_threads / WINDOW_SIZE := by
  rw [win_posts, normalizeMessages]
  exact Nat.mul_div_cancel_left _ (by decide)

/-! ## Claim theorems -/

/-- Claim C1: for every positive `num_threads`, `window_size` and
`num_messages`, the normalization of line 41 sets the per-thread message
count to `window_size * floor(num_messages / num_threads / window_size)`;
the result is an exact multiple of `window_size` and is the largest multiple
of `window_size` not exceeding `num_messages / num_threads`; for
`num_threads = 1`, `num_messages = 640000`, `window_size = WINDOW_SIZE = 64`
the normalized count is `640000`. -/
theorem normalize_messages_correct (num_threads window_size num_messages : Nat)
    (hnt : 0 < num_threads) (hws : 0 < window_size) (hnm : 0 < num_messages) :
    normalizeMessages num_messages num_threads window_size
        = window_size * (num_messages / num_threads / window_size)
    ∧ normalizeMessages num_messages num_threads window_size % window_size = 0
    ∧ normalizeMessages num_messages num_threads window_size ≤ num_messages / num_threads
    ∧ (∀ k, window_size * k ≤ num_messages / num_threads →
        window_size * k ≤ normalizeMessages num_messages num_threads window_size)
    ∧ normalizeMessages 640000 1 WINDOW_SIZE = 640000 := by
  refine ⟨rfl, Nat.mul_mod_right _ _, ?_, ?_, by decide⟩
  · rw [normalizeMessages, Nat.mul_comm]
    exact Nat.div_mul_le_self _ _
  · intro k hk
    have hk2 : k ≤ num_messages / num_threads / window_size :=
      (Nat.le_div_iff_mul_le hws).mpr (by rwa [Nat.mul_comm] at hk)
    exact Nat.mul_le_mul_left _ hk2

/-- Witness for C1: the hypotheses of `normalize_messages_correct` hold at
`num_threads = 1`, `window_size = 64`, `num_messages = 640000` and yield
Scenario A's value. -/
theorem normalize_messages_correct_witness :
    0 < 1 ∧ 0 < 64 ∧ 0 < 640000
    ∧ normalizeMessages 640000 1 64 % 64 = 0
    ∧ normalizeMessages 640000 1 WINDOW_SIZE = 640000 :=
  ⟨by decide, by decide, by decide,
   (normalize_messages_correct 1 64 640000 (by decide) (by decide) (by decide)).2.1,
   (normalize_messages_correct 1 64 640000 (by decide) (by decide) (by decide)).2.2.2.2⟩

/-- Counterexample to claim C2: in Scenario B (`num_threads = 4`,
`num_messages = 640000`) the per-thread normalized count is `160000`, not
`159936` — nothing is dropped (`4 * 160000 = 640000`) — and no warning is
emitted; moreover a configuration that genuinely drops messages
(`num_messages = 640001`) emits no warning either, because lines 80-82 test
the already-normalized count of line 41, which is always a multiple of
`WINDOW_SIZE`. -/
theorem accuracy_warning_cex :
    normalizeMessages 640000 4 WINDOW_SIZE = 160000
    ∧ 4 * normalizeMessages 640000 4 WINDOW_SIZE = 640000
    ∧ accuracyWarning 640000 4 = false
    ∧ 4 * normalizeMessages 640001 4 WINDOW_SIZE ≠ 640001
    ∧ accuracyWarning 640001 4 = false := by decide

/-- Claim C2 (amended): the accuracy warning is never emitted for any
configuration, because the check of lines 80-82 runs on the count already
normalized by line 41, which is always an exact multiple of `WINDOW_SIZE`;
runs that drop messages proceed silently. -/
theorem accuracy_warning_never (num_messages num_threads : Nat) :
    accuracyWarning num_messages num_threads = false := by
  rw [accuracyWarning, win_posts_eq, normalizeMessages]
  simp [Nat.mul_comm]

/-- Counterexample to claim C3: at the positive configuration
`num_threads = 1`, `num_messages = 1` (with `WINDOW_SIZE = 64`) the batch
count `win_posts` is `0`, so normalization does not guarantee at least one
batch per thread. -/
theorem win_posts_zero_cex :
    0 < 1 ∧ win_posts 1 1 = 0 ∧ ¬ 1 ≤ win_posts 1 1 := by decide

/-- Claim C3 (amended): the batch count is at least `1` exactly when the
requested `num_messages` is at least `num_threads * WINDOW_SIZE`; under that
extra bound every worker thread executes at least one batch/flush
iteration. -/
theorem win_posts_pos (num_messages num_threads : Nat) (hnt : 0 < num_threads)
    (h : num_threads * WINDOW_SIZE ≤ num_messages) :
    1 ≤ win_posts num_messages num_threads := by
  rw [win_posts_eq]
  have h64 : WINDOW_SIZE ≤ num_messages / num_threads :=
    (Nat.le_div_iff_mul_le hnt).mpr (by rwa [Nat.mul_comm WINDOW_SIZE num_threads])
  exact (Nat.one_le_div_iff (by decide)).mpr h64

/-- Witness for C3 (amended): at the default configuration
`num_threads = 1`, `num_messages = 640000` the hypotheses hold and the batch
count is positive. -/
theorem win_posts_pos_witness :
    0 < 1 ∧ 1 * WINDOW_SIZE ≤ 640000 ∧ 1 ≤ win_posts 640000 1 :=
  ⟨by decide, by decide, win_posts_pos 640000 1 (by decide) (by decide)⟩

/-- Claim C4: the reporting loop computes thread `t`'s message rate as
`num_messages / t_elapsed[t] / 1e6` and its bandwidth as
`message_size * num_messages / (1024*1024) / t_elapsed[t]`, and the
process-wide totals are the arithmetic sums over threads; in Scenario C
(`t_elapsed = [1, 2]`, `message_size = 1024`, per-thread count `1000000`)
the rates are `1` and `1/2` Mmsg/s, the bandwidths `976.5625 = 15625/16`
and `488.28125 = 15625/32` MB/s, and the aggregate rate is `3/2` Mmsg/s. -/
theorem aggregate_rate_formula :
    (∀ (message_size num_messages : Nat) (s : AggState),
        0 < message_size → 0 < num_messages → (∀ t ∈ s.t_elapsed, 0 < t) →
        (aggregate message_size num_messages s).perThread
            = s.t_elapsed.map (fun t =>
                (threadMsgRate num_messages t,
                 threadBandwidth message_size num_messages t))
        ∧ (aggregate message_size num_messages s).msg_rate
            = (s.t_elapsed.map (threadMsgRate num_messages)).sum
        ∧ (aggregate message_size num_messages s).bandwidth
            = (s.t_elapsed.map (threadBandwidth message_size num_messages)).sum)
    ∧ threadMsgRate 1000000 1 = 1
    ∧ threadMsgRate 1000000 2 = 1 / 2
    ∧ threadBandwidth 1024 1000000 1 = 15625 / 16
    ∧ threadBandwidth 1024 1000000 2 = 15625 / 32
    ∧ (aggregate 1024 1000000 ⟨[1, 2], [], 0, 0⟩).msg_rate = 3 / 2 := by
  refine ⟨?_, ?_, ?_, ?_, ?_, ?_⟩
  · intro ms nm s _ _ _
    simp [aggregate_eq]
  · norm_num [threadMsgRate]
  · norm_num [threadMsgRate]
  · norm_num [threadBandwidth]
  · norm_num [threadBandwidth]
  · norm_num [aggregate, aggStep, threadMsgRate, threadBandwidth]

/-- Witness for C4: the general formula applied at Scenario C's input yields
the per-thread rows `[(1, 15625/16), (1/2, 15625/32)]`. -/
theorem aggregate_rate_formula_witness :
    0 < 1024 ∧ 0 < 1000000 ∧ (∀ t ∈ [(1 : ℚ), 2], 0 < t)
    ∧ (aggregate 1024 1000000 ⟨[1, 2], [], 0, 0⟩).perThread
        = [(1, 15625 / 16), (1 / 2, 15625 / 32)] := by
  have hpos : ∀ t ∈ [(1 : ℚ), 2], 0 < t := by
    intro t ht
    simp only [List.mem_cons, List.not_mem_nil, or_false] at ht
    rcases ht with rfl | rfl <;> norm_num
  refine ⟨by decide, by decide, hpos, ?_⟩
  have h := (aggregate_rate_formula.1 1024 1000000 ⟨[1, 2], [], 0, 0⟩
      (by decide) (by decide) hpos).1
  rw [h]
  norm_num [threadMsgRate, threadBandwidth]

/-- Counterexample to claim C5: on the sender (rank 0) no cross-peer barrier
stands between the end of the measured loop and the epoch close — the
segment of the trace strictly between `measureLoop` and `unlockAll` contains
no `mpiBarrier` — and on the target (rank 1) the window is freed after only
the single pre-measurement barrier, not after a barrier that follows the
sender's writes; the sender trace also differs from the spec's phase list. -/
theorem sender_phase_order_cex :
    runBenchTrace 0 ≠ specSenderTrace
    ∧ Ev.measureLoop ∈ runBenchTrace 0
    ∧ Ev.unlockAll ∈ runBenchTrace 0
    ∧ Ev.mpiBarrier ∉
        (((runBenchTrace 0).dropWhile fun e => decide (e ≠ Ev.measureLoop)).takeWhile
          fun e => decide (e ≠ Ev.unlockAll))
    ∧ (runBenchTrace 1).takeWhile (fun e => decide (e ≠ Ev.winFree))
        = [Ev.allocTargetBuf, Ev.winCreate, Ev.mpiBarrier] := by decide

/-- Claim C5 (amended): the sender passes through
`WindowReady → EpochOpen → Warmup → Barrier1 → Measuring → EpochClosed →
WindowFreed → Barrier2 → Reported → Barrier3`: the epoch is closed and the
window freed immediately after the measured phase with no intervening
cross-peer barrier, and the target initiates its (collective) window free
right after Barrier1, relying on the collectivity of the free — not a
barrier — to order its teardown after the sender's writes. -/
theorem sender_phase_order :
    runBenchTrace 0 = [Ev.winCreate, Ev.lockAll, Ev.warmupLoop, Ev.mpiBarrier,
        Ev.measureLoop, Ev.unlockAll, Ev.winFree, Ev.mpiBarrier, Ev.report,
        Ev.mpiBarrier, Ev.freeBuf]
    ∧ runBenchTrace 1 = [Ev.allocTargetBuf, Ev.winCreate, Ev.mpiBarrier,
        Ev.winFree, Ev.mpiBarrier, Ev.mpiBarrier, Ev.freeBuf] := by decide

/-- Claim C6: if the substrate was not initialized with full multithreading
support, or the peer count is not exactly two, `main` aborts the run right
after `MPI_Init_thread` — before any window is created and before any target
buffer is allocated. -/
theorem abort_before_window (provided : ThreadLevel) (size rank : Nat)
    (h : provided ≠ ThreadLevel.multiple ∨ size ≠ 2) :
    mainTrace provided size rank = [Ev.initThread, Ev.abortRun]
    ∧ Ev.winCreate ∉ mainTrace provided size rank
    ∧ Ev.allocTargetBuf ∉ mainTrace provided size rank := by
  have htr : mainTrace provided size rank = [Ev.initThread, Ev.abortRun] := by
    rcases h with h | h
    · simp [mainTrace, h]
    · rcases eq_or_ne provided ThreadLevel.multiple with rfl | hp
      · simp [mainTrace, h]
      · simp [mainTrace, hp]
  refine ⟨htr, ?_, ?_⟩ <;> rw [htr] <;> decide

/-- Witness for C6: a substrate providing only `single` support with two
peers aborts with no window creation and no target-buffer allocation. -/
theorem abort_before_window_witness :
    (ThreadLevel.single ≠ ThreadLevel.multiple ∨ (2 : Nat) ≠ 2)
    ∧ mainTrace ThreadLevel.single 2 0 = [Ev.initThread, Ev.abortRun]
    ∧ Ev.winCreate ∉ mainTrace ThreadLevel.single 2 0
    ∧ Ev.allocTargetBuf ∉ mainTrace ThreadLevel.single 2 0 :=
  ⟨Or.inl (by decide),
   (abort_before_window ThreadLevel.single 2 0 (Or.inl (by decide))).1,
   (abort_before_window ThreadLevel.single 2 0 (Or.inl (by decide))).2.1,
   (abort_before_window ThreadLevel.single 2 0 (Or.inl (by decide))).2.2⟩

/-- Claim C7: for distinct worker threads `i ≠ j` and positive
`message_size`, the slot byte ranges `[i*message_size, (i+1)*message_size)`
and `[j*message_size, (j+1)*message_size)` are disjoint; each `MPI_Put` of
thread `i` (displacement `target_disp = i * message_size`, length
`message_size`, lines 78 and 94/111) covers exactly thread `i`'s slot; and
each slot of a thread `i < num_threads` lies inside the target window of
`contig_buffer_size` bytes. -/
theorem slots_disjoint (i j message_size num_threads : Nat)
    (hij : i ≠ j) (hms : 0 < message_size) :
    Disjoint (slotRange i message_size) (slotRange j message_size)
    ∧ putRange i message_size = slotRange i message_size
    ∧ (i < num_threads →
        slotRange i message_size ⊆
          Finset.Ico 0 (contig_buffer_size message_size num_threads)) := by
  refine ⟨?_, ?_, ?_⟩
  · rw [Finset.disjoint_left]
    intro x hx hx2
    rw [slotRange, Finset.mem_Ico] at hx hx2
    rcases hij.lt_or_lt with h | h
    · have hle : (i + 1) * message_size ≤ j * message_size :=
        Nat.mul_le_mul_right _ h
      exact absurd (hx.2.trans_le (hle.trans hx2.1)) (lt_irrefl x)
    · have hle : (j + 1) * message_size ≤ i * message_size :=
        Nat.mul_le_mul_right _ h
      exact absurd (hx2.2.trans_le (hle.trans hx.1)) (lt_irrefl x)
  · rw [putRange, slotRange, target_disp, Nat.succ_mul]
  · intro hi
    rw [slotRange, contig_buffer_size]
    intro x hx
    rw [Finset.mem_Ico] at hx
    rw [Finset.mem_Ico]
    have h1 : (i + 1) * message_size ≤ num_threads * message_size :=
      Nat.mul_le_mul_right _ hi
    have h2 : num_threads * message_size = message_size * num_threads :=
      Nat.mul_comm _ _
    exact ⟨Nat.zero_le x, lt_of_lt_of_le hx.2 (h2 ▸ h1)⟩

/-- Witness for C7: threads `0` and `1` with `message_size = 8` and
`num_threads = 2` have disjoint slots, the put range equals the slot, and
slot `0` lies inside the 16-byte window. -/
theorem slots_disjoint_witness :
    (0 : Nat) ≠ 1 ∧ 0 < 8
    ∧ Disjoint (slotRange 0 8) (slotRange 1 8)
    ∧ putRange 0 8 = slotRange 0 8
    ∧ (0 < 2 → slotRange 0 8 ⊆ Finset.Ico 0 (contig_buffer_size 8 2)) :=
  ⟨by decide, by decide,
   (slots_disjoint 0 1 8 2 (by decide) (by decide)).1,
   (slots_disjoint 0 1 8 2 (by decide) (by decide)).2.1,
   (slots_disjoint 0 1 8 2 (by decide) (by decide)).2.2⟩

/-- Claim C8: for fixed positive `message_size` and per-thread message count,
the computed message rate and bandwidth are strictly decreasing in the
elapsed time: for `0 < t1 < t2` the values at `t2` are strictly smaller. -/
theorem rate_bandwidth_strict_anti (message_size num_messages : Nat) (t1 t2 : ℚ)
    (hms : 0 < message_size) (hnm : 0 < num_messages) (ht1 : 0 < t1) (h12 : t1 < t2) :
    threadMsgRate num_messages t2 < threadMsgRate num_messages t1
    ∧ threadBandwidth message_size num_messages t2
        < threadBandwidth message_size num_messages t1 := by
  have hnmq : (0 : ℚ) < (num_messages : ℚ) := by exact_mod_cast hnm
  have hmsq : (0 : ℚ) < (message_size : ℚ) := by exact_mod_cast hms
  constructor
  · rw [threadMsgRate, threadMsgRate]
    exact (div_lt_div_iff_of_pos_right (by norm_num)).mpr
      (div_lt_div_of_pos_left hnmq ht1 h12)
  · rw [threadBandwidth, threadBandwidth]
    have ha : (0 : ℚ) < (message_size : ℚ) * (num_messages : ℚ) / (1024 * 1024) := by
      positivity
    exact div_lt_div_of_pos_left ha ht1 h12

/-- Witness for C8: at `message_size = 1024`, `num_messages = 1000000`,
`t1 = 1 < t2 = 2` both quantities strictly decrease. -/
theorem rate_bandwidth_strict_anti_witness :
    0 < 1024 ∧ 0 < 1000000 ∧ (0 : ℚ) < 1 ∧ (1 : ℚ) < 2
    ∧ threadMsgRate 1000000 2 < threadMsgRate 1000000 1
    ∧ threadBandwidth 1024 1000000 2 < threadBandwidth 1024 1000000 1 :=
  ⟨by decide, by decide, by norm_num, by norm_num,
   (rate_bandwidth_strict_anti 1024 1000000 1 2 (by decide) (by decide)
     (by norm_num) (by norm_num)).1,
   (rate_bandwidth_strict_anti 1024 1000000 1 2 (by decide) (by decide)
     (by norm_num) (by norm_num)).2⟩

/-- Claim C9: the reporting block is a deterministic function whose second
application to its own output yields the identical state — identical
per-thread rows and identical aggregate rate and bandwidth — and it leaves
the elapsed-time samples unchanged. -/
theorem aggregate_idempotent (message_size num_messages : Nat) (s : AggState) :
    aggregate message_size num_messages (aggregate message_size num_messages s)
        = aggregate message_size num_messages s
    ∧ (aggregate message_size num_messages s).t_elapsed = s.t_elapsed := by
  refine ⟨?_, ?_⟩ <;> simp [aggregate_eq]

/-- Claim C10: the batch size is the compile-time constant `WINDOW_SIZE = 64`;
no command-line option changes it, and supplying the advertised
`-W`/`--window-size` option (with no earlier help option) drives the option
switch into its `default` branch: "Unrecognized argument" and
`EXIT_FAILURE`, so the benchmark does not run. -/
theorem window_size_fixed (v : Nat) :
    WINDOW_SIZE = 64
    ∧ (∀ (opts : List CliOpt) (nt nm ms : Nat),
        CliOpt.windowSize v ∈ opts → CliOpt.help ∉ opts →
        parseArgs opts nt nm ms = CliResult.unrecognizedFailure)
    ∧ mainParse [CliOpt.windowSize v] = CliResult.unrecognizedFailure := by
  refine ⟨rfl, ?_, rfl⟩
  intro opts
  induction opts with
  | nil =>
    intro nt nm ms h _
    cases h
  | cons o rest ih =>
    intro nt nm ms hmem hhelp
    have hrest : CliOpt.help ∉ rest := fun hh => hhelp (List.mem_cons_of_mem _ hh)
    cases o with
    | help => exact absurd (List.mem_cons_self _ _) hhelp
    | threads w =>
      have hm : CliOpt.windowSize v ∈ rest := by
        rcases List.mem_cons.mp hmem with h | h
        · simp at h
        · exact h
      exact ih _ _ _ hm hrest
    | numMessages w =>
      have hm : CliOpt.windowSize v ∈ rest := by
        rcases List.mem_cons.mp hmem with h | h
        · simp at h
        · exact h
      exact ih _ _ _ hm hrest
    | messageSize w =>
      have hm : CliOpt.windowSize v ∈ rest := by
        rcases List.mem_cons.mp hmem with h | h
        · simp at h
        · exact h
      exact ih _ _ _ hm hrest
    | windowSize w => rfl

/-- Witness for C10: passing only `-W 128` ends in "Unrecognized argument"
with `EXIT_FAILURE`. -/
theorem window_size_fixed_witness :
    CliOpt.windowSize 128 ∈ [CliOpt.windowSize 128]
    ∧ CliOpt.help ∉ [CliOpt.windowSize 128]
    ∧ parseArgs [CliOpt.windowSize 128] DEF_NUM_THREADS DEF_NUM_MESSAGES DEF_MESSAGE_SIZE
        = CliResult.unrecognizedFailure :=
  ⟨by decide, by decide,
   (window_size_fixed 128).2.1 [CliOpt.windowSize 128] _ _ _ (by decide) (by decide)⟩

end MbwMr
